import Mathlib

/-!
Verification development for `dropguard.py`, a single-file provisioning
script that creates a DigitalOcean droplet, waits for it to become active,
waits over SSH for its cloud-init setup to finish, and downloads the
generated WireGuard client configuration.

The Python source is shallowly embedded: every function that the claims
touch (`request`, `droplet_status`, `config_status`, `create_droplet`,
`main`) is translated into an executable Lean definition.  External
effects (HTTP responses, SSH connection outcomes, remote log contents)
are supplied as explicit inputs; observable actions (log lines, SCP
fetches, connection closes) are recorded in event traces.
-/

/-- Python exceptions that the script can raise or handle.
`digitalOceanError` is the script's own exception class; the others model
built-in / library exceptions that reach the relevant code paths. -/
inductive PyError where
  | digitalOceanError (msg : String)
  | keyError (key : String)
  | typeError
  | indexError
  | unboundLocal (name : String)
  | jsonDecodeError
  | sshError (name : String)
deriving DecidableEq

/-- JSON-like values, the result of `json.loads` on a response body. -/
inductive JVal where
  | jstr (s : String)
  | jnum (n : Int)
  | jarr (elems : List JVal)
  | jobj (fields : List (String × JVal))
  | jnull

/-- Python subscripting `v[key]` with a string key: succeeds on a dict
containing the key, raises `KeyError` on a dict missing it, and raises
`TypeError` on any non-dict value. -/
def JVal.index (v : JVal) (key : String) : Except PyError JVal :=
  match v with
  | .jobj fields =>
      match fields.lookup key with
      | some x => .ok x
      | none => .error (.keyError key)
  | _ => .error .typeError

/-- Python equality `v == s` between an arbitrary value and a string
literal: true exactly for an equal string, false for any other value
(Python `==` across types yields `False`, it does not raise). -/
def jvalEqStr (v : JVal) (s : String) : Bool :=
  match v with
  | .jstr t => t == s
  | _ => false

/-- Python `str()` as used by the f-string in `request`.  Scalar values
are rendered faithfully; composite values (never produced in the `id` /
`message` fields of a DigitalOcean error body) get an abstract rendering. -/
def pyStr : JVal → String
  | .jstr s => s
  | .jnum n => toString n
  | .jnull => "None"
  | .jarr _ => "list"
  | .jobj _ => "dict"

/-- `request` (dropguard.py lines 57-80).  The HTTP exchange itself is an
input: the status code together with the result of `json.loads(r.text)`
(`jsonDecodeError` when the body does not parse).  The body is parsed
before the status check, exactly as in the source; a non-{200,202} status
raises `DigitalOceanError` built from the f-string
`"{res['id']} - {res['message']}"`, whose subscripting can itself raise.
Whether the call is a GET or a POST does not affect response handling. -/
def request (status_code : Nat) (parsed : Except PyError JVal) : Except PyError JVal :=
  match parsed with
  | .error e => .error e
  | .ok res =>
    if status_code ≠ 200 ∧ status_code ≠ 202 then
      match res.index "id" with
      | .error e => .error e
      | .ok i =>
        match res.index "message" with
        | .error e => .error e
        | .ok m => .error (.digitalOceanError (pyStr i ++ " - " ++ pyStr m))
    else .ok res

/-- `droplet_status` (lines 159-170).  Each loop iteration sleeps and
performs one `request`; the scripted list supplies the successive results
of those requests (`Except.error e` for an iteration whose `request`
raised `e`).  The function returns `none` when the script is exhausted,
modelling a run of the unbounded loop that has not yet returned within
the scripted horizon; `some (.ok d)` models `return res["droplet"]`, and
`some (.error e)` models an exception escaping the loop. -/
def droplet_status : List (Except PyError JVal) → Option (Except PyError JVal)
  | [] => none
  | r :: rest =>
    match r with
    | .error e => some (.error e)
    | .ok res =>
      match res.index "droplet" with
      | .error e => some (.error e)
      | .ok d =>
        match d.index "status" with
        | .error e => some (.error e)
        | .ok s => if jvalEqStr s "active" then some (.ok d) else droplet_status rest

/-!
## The Remote Setup Watcher (`config_status`, lines 123-156)

One loop iteration ("cycle") sleeps 10 s, attempts an SSH connection,
and — when connected — runs `cat /var/log/cloud-init-output.log` and
inspects the last line of its output.  The environment of one cycle
supplies the connection outcome and the log lines the command returned.
-/

/-- Outcome of `ssh_client.connect` in one cycle:
`noValidConnections` is `paramiko.ssh_exception.NoValidConnectionsError`
(the only exception the source catches); `otherError` is any other
exception raised by `connect` (authentication failure, host key issue,
...); `ok` is a successful connection. -/
inductive ConnectResult where
  | noValidConnections
  | otherError (e : PyError)
  | ok
deriving DecidableEq

/-- The externally supplied behaviour of one watcher cycle. -/
structure CycleEnv where
  connect : ConnectResult
  /-- `stdout.readlines()` of the `cat` command, one list of chars per line. -/
  logLines : List (List Char)

/-- Observable actions of the watcher, in program order. -/
inductive WatcherEvent where
  | sleep
  | connectAttempt
  | connected
  | execLog
  | fetchArtifact
  | closeConn
deriving DecidableEq

/-- How one cycle ends: `retry` re-enters the loop, `success` executes
`break`, `fatal e` is an exception propagating out of the loop body. -/
inductive CycleOutcome where
  | retry
  | success
  | fatal (e : PyError)
deriving DecidableEq

/-- The regex literal `"Cloud-init"` of `FINISHED_PATTERN` (line 50). -/
def cloudInitPat : List Char := "Cloud-init".toList

/-- The regex literal `"finished at"` of `FINISHED_PATTERN` (line 50). -/
def finishedAtPat : List Char := "finished at".toList

/-- Helper for `searchFinished`: true iff the list decomposes as
`m ++ "finished at" ++ b` with `m` nonempty and newline-free — the
`.+finished at` part of the pattern (`.` does not match a newline). -/
def tailFinished : List Char → Bool
  | [] => false
  | c :: rest => (c != '\n') && (finishedAtPat.isPrefixOf rest || tailFinished rest)

/-- `re.search(FINISHED_PATTERN, line)` as a Boolean: some position of
the line starts `"Cloud-init"`, followed by one-or-more non-newline
characters, followed by `"finished at"`. -/
def searchFinished : List Char → Bool
  | [] => false
  | c :: rest =>
    (cloudInitPat.isPrefixOf (c :: rest) && tailFinished ((c :: rest).drop cloudInitPat.length))
      || searchFinished rest

/-- One iteration of the `while True` body of `config_status`
(lines 134-154): sleep, attempt the connection (`continue` on
`NoValidConnectionsError`, propagate any other exception), read the log,
index its last line (`stdout.readlines()[-1]` raises `IndexError` on an
empty list), and on a pattern match fetch the artifact over SCP and
`break`.  Note that no branch of the body closes the connection. -/
def cycleStep (env : CycleEnv) : CycleOutcome × List WatcherEvent :=
  match env.connect with
  | .noValidConnections => (.retry, [.sleep, .connectAttempt])
  | .otherError e => (.fatal e, [.sleep, .connectAttempt])
  | .ok =>
    match env.logLines.getLast? with
    | none => (.fatal .indexError, [.sleep, .connectAttempt, .connected, .execLog])
    | some last =>
      if searchFinished last then
        (.success, [.sleep, .connectAttempt, .connected, .execLog, .fetchArtifact])
      else
        (.retry, [.sleep, .connectAttempt, .connected, .execLog])

/-- `config_status` (lines 123-156): the loop over a scripted list of
cycle environments.  `ssh_client.close()` (line 156) runs only after the
`break` of a successful cycle, so `closeConn` is appended exactly there;
an exception leaves the function without reaching line 156.  `none`
models a run that is still looping when the script is exhausted. -/
def config_status : List CycleEnv → Option (CycleOutcome × List WatcherEvent)
  | [] => none
  | env :: rest =>
    match cycleStep env with
    | (.retry, evs) =>
      match config_status rest with
      | none => none
      | some (o, evs') => some (o, evs ++ evs')
    | (.success, evs) => some (.success, evs ++ [.closeConn])
    | (.fatal e, evs) => some (.fatal e, evs)

/-!
## Template substitution (`create_droplet`, lines 190-193)

`user_data.replace("WG_PORT", port)` — Python `str.replace`, which
rewrites the non-overlapping occurrences of the pattern left to right.
-/

/-- Worker for `pyStrReplace`.  The counter skips the remaining
characters of a pattern occurrence that has just been replaced; matching
is only attempted when the counter is zero.  (The `!pat.isEmpty` guard
only matters for an empty pattern, which the script never passes: the
call site uses the literal `"WG_PORT"`.) -/
def replaceAllGo (pat sub : List Char) : Nat → List Char → List Char
  | _, [] => []
  | k + 1, _ :: rest => replaceAllGo pat sub k rest
  | 0, c :: rest =>
    if !pat.isEmpty && pat.isPrefixOf (c :: rest) then
      sub ++ replaceAllGo pat sub (pat.length - 1) rest
    else
      c :: replaceAllGo pat sub 0 rest

/-- Python `s.replace(pat, sub)` for a nonempty `pat`: every
non-overlapping occurrence of `pat` in `s`, scanned left to right, is
replaced by `sub`. -/
def pyStrReplace (s pat sub : List Char) : List Char :=
  replaceAllGo pat sub 0 s

/-- The placeholder token `"WG_PORT"` (line 193). -/
def wgPlaceholder : List Char := "WG_PORT".toList

/-!
## The orchestrator (`create_droplet`, lines 173-223, and `main`, 226-256)
-/

/-- The externally supplied behaviour of one `create` run: the result of
the droplet-creation `request`, the scripted results of the polling
requests inside `droplet_status`, and the scripted watcher cycles. -/
structure OrchEnv where
  createResult : Except PyError JVal
  pollResponses : List (Except PyError JVal)
  watcherScript : List CycleEnv

/-- Observable actions of `create_droplet` / `main`. -/
inductive OrchEvent where
  | logInfo (msg : String)
  | logError (msg : String)
  | setUserData (payload : List Char)
  | invokedPoller
  | invokedWatcher (ip : JVal)

/-- How `create_droplet` ends, as seen by `main`:
`ok` and `earlyReturn` are both a normal `return` (`earlyReturn` is the
`except KeyError` branch of lines 212-214); `raised e` is an exception
propagating out; `hangs` models a loop still running when its script is
exhausted. -/
inductive OrchOutcome where
  | ok
  | earlyReturn
  | raised (e : PyError)
  | hangs
deriving DecidableEq

/-- The `for ipaddr in droplet_data["networks"]["v4"]` scan of
lines 216-220: returns the `ip_address` of the first entry whose
`type` equals `"public"` (the `break`), `none` when no entry matches
(the loop falls through leaving `droplet_ip` unassigned), and an error
when subscripting an entry raises. -/
def firstPublic : List JVal → Except PyError (Option JVal)
  | [] => .ok none
  | a :: rest =>
    match a.index "type" with
    | .error e => .error e
    | .ok t =>
      if jvalEqStr t "public" then
        match a.index "ip_address" with
        | .error e => .error e
        | .ok ip => .ok (some ip)
      else firstPublic rest

/-- `create_droplet` (lines 173-223), with the template file content and
port supplied as inputs.  The `try`/`except KeyError` of lines 210-214
covers exactly the expression `droplet_status(droplet_id=res["droplet"]["id"])`:
a `KeyError` raised by the subscripting or from inside `droplet_status`
is caught, logged, and turned into a plain `return`; every other
exception propagates.  The network scan (lines 216-220) and the watcher
call (line 223) sit outside that `try`.  A non-list `networks["v4"]`
value raises a `TypeError` (Python would raise it at the `for` or at the
string subscript of an element); a `some (.retry, _)` watcher result
cannot occur (`config_status` never returns it) and is mapped like
success. -/
def create_droplet (template port : List Char) (env : OrchEnv) : OrchOutcome × List OrchEvent :=
  let user_data := pyStrReplace template wgPlaceholder port
  let evs0 : List OrchEvent := [.logInfo "setting cloud_config.yml", .setUserData user_data]
  match env.createResult with
  | .error e => (.raised e, evs0)
  | .ok res =>
    let evs1 := evs0 ++ [.logInfo "waiting for droplet to become active"]
    match res.index "droplet" with
    | .error (.keyError _) => (.earlyReturn, evs1 ++ [.logError "failed to check droplet status"])
    | .error e => (.raised e, evs1)
    | .ok d0 =>
      match d0.index "id" with
      | .error (.keyError _) => (.earlyReturn, evs1 ++ [.logError "failed to check droplet status"])
      | .error e => (.raised e, evs1)
      | .ok _ =>
        let evs2 := evs1 ++ [.invokedPoller]
        match droplet_status env.pollResponses with
        | none => (.hangs, evs2)
        | some (.error (.keyError _)) =>
            (.earlyReturn, evs2 ++ [.logError "failed to check droplet status"])
        | some (.error e) => (.raised e, evs2)
        | some (.ok droplet_data) =>
          match droplet_data.index "networks" with
          | .error e => (.raised e, evs2)
          | .ok nets =>
            match nets.index "v4" with
            | .error e => (.raised e, evs2)
            | .ok (.jarr addrs) =>
              match firstPublic addrs with
              | .error e => (.raised e, evs2)
              | .ok none => (.raised (.unboundLocal "droplet_ip"), evs2)
              | .ok (some ip) =>
                let evs3 := evs2 ++ [.logInfo "checking cloud-config status", .invokedWatcher ip]
                (match config_status env.watcherScript with
                 | none => .hangs
                 | some (.fatal e, _) => .raised e
                 | some (.success, _) => .ok
                 | some (.retry, _) => .ok, evs3)
            | .ok _ => (.raised .typeError, evs2)

/-- The `create` branch of `main` (lines 241-256) together with the
process exit code: a normal return of `create_droplet` lets the script
end with exit code 0; a `DigitalOceanError` is caught, logged, and
followed by `exit(1)`; any other exception is uncaught, and the
interpreter exits with code 1 after printing a traceback.  `none` as the
exit code models a run still blocked in one of the loops. -/
def main_create (template port : List Char) (env : OrchEnv) :
    OrchOutcome × List OrchEvent × Option Nat :=
  match create_droplet template port env with
  | (.ok, evs) => (.ok, evs, some 0)
  | (.earlyReturn, evs) => (.earlyReturn, evs, some 0)
  | (.hangs, evs) => (.hangs, evs, none)
  | (.raised (.digitalOceanError m), evs) =>
      (.raised (.digitalOceanError m), evs ++ [.logError m], some 1)
  | (.raised e, evs) => (.raised e, evs, some 1)

/-!
## Substring machinery

Self-contained containment predicates used to state the template
substitution and completion-marker properties.
-/

/-- `pat` occurs as a contiguous substring of `l`. -/
def containsSub (pat l : List Char) : Prop :=
  ∃ s t, l = s ++ (pat ++ t)

/-- Executable version of `containsSub`. -/
def containsSubB (pat : List Char) : List Char → Bool
  | [] => pat.isEmpty
  | c :: rest => pat.isPrefixOf (c :: rest) || containsSubB pat rest

theorem isPrefixOf_eq_true {α : Type} [DecidableEq α] :
    ∀ (p l : List α), p.isPrefixOf l = true ↔ ∃ t, l = p ++ t := by
  intro p
  induction p with
  | nil =>
    intro l
    simp [List.isPrefixOf]
  | cons a as ih =>
    intro l
    cases l with
    | nil => simp [List.isPrefixOf]
    | cons b bs =>
      simp only [List.isPrefixOf, Bool.and_eq_true, beq_iff_eq, ih bs]
      constructor
      · rintro ⟨rfl, t, rfl⟩
        exact ⟨t, rfl⟩
      · rintro ⟨t, h⟩
        cases h
        exact ⟨rfl, t, rfl⟩

theorem containsSubB_eq_true :
    ∀ (pat l : List Char), containsSubB pat l = true ↔ containsSub pat l := by
  intro pat l
  induction l with
  | nil =>
    simp only [containsSubB, containsSub, List.isEmpty_iff]
    constructor
    · rintro rfl
      exact ⟨[], [], rfl⟩
    · rintro ⟨s, t, h⟩
      rcases List.append_eq_nil.mp h.symm with ⟨h1, h2⟩
      exact (List.append_eq_nil.mp h2).1
  | cons c rest ih =>
    simp only [containsSubB, Bool.or_eq_true, isPrefixOf_eq_true, ih, containsSub]
    constructor
    · rintro (⟨t, h⟩ | ⟨s, t, h⟩)
      · exact ⟨[], t, h⟩
      · exact ⟨c :: s, t, by simp [h]⟩
    · rintro ⟨s, t, h⟩
      cases s with
      | nil => exact Or.inl ⟨t, by simpa using h⟩
      | cons s0 s' =>
        rcases List.cons_eq_cons.mp h with ⟨rfl, h2⟩
        exact Or.inr ⟨s', t, h2⟩

/-- Skipping a block whose characters all avoid `pat`: an occurrence of
`pat` in `s ++ r` cannot touch `s`, so it lies in `r`. -/
theorem containsSub_drop_disjoint (pat : List Char) :
    ∀ (s r : List Char), (∀ c ∈ s, c ∉ pat) → pat ≠ [] →
      containsSub pat (s ++ r) → containsSub pat r := by
  intro s
  induction s with
  | nil =>
    intro r _ _ h
    simpa using h
  | cons a s' ih =>
    intro r hd hp h
    rcases h with ⟨u, t, h⟩
    cases u with
    | nil =>
      simp only [List.nil_append, List.cons_append] at h
      cases pat with
      | nil => exact absurd rfl hp
      | cons p0 pt =>
        rcases List.cons_eq_cons.mp (by simpa using h) with ⟨h0, _⟩
        exact absurd (h0 ▸ List.mem_cons_self p0 pt)
          (hd a (List.mem_cons_self a s'))
    | cons u0 u' =>
      rcases List.cons_eq_cons.mp (by simpa using h) with ⟨_, h2⟩
      exact ih r (fun c hc => hd c (List.mem_cons_of_mem a hc)) hp ⟨u', t, h2⟩

/-- If a nonempty block `q` drawn from the characters of `pat` starts
the output of the replacement scanner (in scanning state), then `q`
starts the unscanned input: replaced occurrences emit `sub`, whose
characters are disjoint from `pat`, so `q` can only consist of input
characters that the scanner passed through unchanged. -/
theorem replaceGo_aligned (pat sub : List Char)
    (hdisj : ∀ c ∈ sub, c ∉ pat) (hs : sub ≠ []) :
    ∀ (l q : List Char), q ≠ [] → (∀ c ∈ q, c ∈ pat) →
      (∃ t, replaceAllGo pat sub 0 l = q ++ t) → ∃ t, l = q ++ t := by
  intro l
  induction l with
  | nil =>
    rintro q hq _ ⟨t, h⟩
    simp only [replaceAllGo] at h
    rcases List.append_eq_nil.mp h.symm with ⟨hq0, _⟩
    exact absurd hq0 hq
  | cons c rest ih =>
    rintro q hq hqc ⟨t, h⟩
    by_cases hg : (!pat.isEmpty && pat.isPrefixOf (c :: rest)) = true
    · simp only [replaceAllGo, hg, if_true] at h
      cases sub with
      | nil => exact absurd rfl hs
      | cons s0 st =>
        cases q with
        | nil => exact absurd rfl hq
        | cons q0 qt =>
          rcases List.cons_eq_cons.mp (by simpa using h) with ⟨h0, _⟩
          exact absurd (hqc q0 (List.mem_cons_self q0 qt))
            (h0 ▸ hdisj s0 (List.mem_cons_self s0 st))
    · rw [Bool.not_eq_true] at hg
      simp only [replaceAllGo, hg, Bool.false_eq_true, if_false] at h
      cases q with
      | nil => exact absurd rfl hq
      | cons q0 qt =>
        rcases List.cons_eq_cons.mp (by simpa using h) with ⟨h0, h2⟩
        cases qt with
        | nil => exact ⟨rest, by simp [h0]⟩
        | cons q1 qt' =>
          rcases ih (q1 :: qt') (by simp)
              (fun x hx => hqc x (List.mem_cons_of_mem q0 hx)) ⟨t, h2⟩ with ⟨t', ht'⟩
          exact ⟨t', by simp [h0, ht']⟩

/-- The output of the replacement never contains the pattern, provided
the replacement text is nonempty and shares no character with the
pattern: replaced occurrences are rewritten to `sub`, and a fresh
occurrence would either touch a character of `sub` (impossible by
disjointness) or lie in a stretch of untouched input characters, where
the scanner would have replaced it. -/
theorem replaceGo_no_pattern (pat sub : List Char)
    (hp : pat ≠ []) (hs : sub ≠ []) (hdisj : ∀ c ∈ sub, c ∉ pat) :
    ∀ (l : List Char) (k : Nat), ¬ containsSub pat (replaceAllGo pat sub k l) := by
  intro l
  induction l with
  | nil =>
    intro k h
    simp only [replaceAllGo] at h
    rcases h with ⟨s, t, heq⟩
    rcases List.append_eq_nil.mp heq.symm with ⟨_, h2⟩
    exact absurd (List.append_eq_nil.mp h2).1 hp
  | cons c rest ih =>
    intro k
    cases k with
    | succ k' =>
      intro h
      simp only [replaceAllGo] at h
      exact ih k' h
    | zero =>
      by_cases hg : (!pat.isEmpty && pat.isPrefixOf (c :: rest)) = true
      · intro h
        simp only [replaceAllGo, hg, if_true] at h
        exact ih (pat.length - 1)
          (containsSub_drop_disjoint pat sub _ hdisj hp h)
      · intro h
        rw [Bool.not_eq_true] at hg
        simp only [replaceAllGo, hg, Bool.false_eq_true, if_false] at h
        rcases h with ⟨u, t, heq⟩
        cases u with
        | nil =>
          simp only [List.nil_append] at heq
          have hpref : pat.isPrefixOf (c :: rest) = true := by
            cases pat with
            | nil => exact absurd rfl hp
            | cons p0 pt =>
              rcases List.cons_eq_cons.mp (by simpa using heq) with ⟨h0, h2⟩
              rcases pt with _ | ⟨p1, pt'⟩
              · exact (isPrefixOf_eq_true _ _).mpr ⟨rest, by simp [h0]⟩
              · rcases replaceGo_aligned (p0 :: p1 :: pt') sub hdisj hs rest (p1 :: pt')
                    (by simp) (fun x hx => List.mem_cons_of_mem p0 hx) ⟨t, h2⟩ with ⟨t', ht'⟩
                exact (isPrefixOf_eq_true _ _).mpr ⟨t', by simp [h0, ht']⟩
          have hne : pat.isEmpty = false := by
            cases pat with
            | nil => exact absurd rfl hp
            | cons a as => rfl
          rw [hpref, hne] at hg
          simp at hg
        | cons u0 u' =>
          rcases List.cons_eq_cons.mp (by simpa using heq) with ⟨_, h2⟩
          exact ih 0 ⟨u', t, h2⟩

/-- When the pattern occurs in the input, the replacement text occurs in
the output (at least one occurrence is rewritten). -/
theorem replaceGo_inserts (pat sub : List Char) (hp : pat ≠ []) :
    ∀ l : List Char, containsSub pat l → containsSub sub (replaceAllGo pat sub 0 l) := by
  intro l
  induction l with
  | nil =>
    rintro ⟨s, t, heq⟩
    rcases List.append_eq_nil.mp heq.symm with ⟨_, h2⟩
    exact absurd (List.append_eq_nil.mp h2).1 hp
  | cons c rest ih =>
    rintro ⟨u, t, heq⟩
    by_cases hg : (!pat.isEmpty && pat.isPrefixOf (c :: rest)) = true
    · exact ⟨[], replaceAllGo pat sub (pat.length - 1) rest,
        by simp [replaceAllGo, hg]⟩
    · cases u with
      | nil =>
        have hpref : pat.isPrefixOf (c :: rest) = true :=
          (isPrefixOf_eq_true _ _).mpr ⟨t, by simpa using heq⟩
        have hne : pat.isEmpty = false := by
          cases pat with
          | nil => exact absurd rfl hp
          | cons a as => rfl
        rw [hpref, hne] at hg
        simp at hg
      | cons u0 u' =>
        rcases List.cons_eq_cons.mp (by simpa using heq) with ⟨h0, h2⟩
        rw [Bool.not_eq_true] at hg
        rcases ih ⟨u', t, h2⟩ with ⟨s', t', hst⟩
        exact ⟨c :: s', t', by simp [replaceAllGo, hg, hst]⟩

/-!
## Helper lemmas
-/

theorem jvalEqStr_eq_true (v : JVal) (s : String) : jvalEqStr v s = true ↔ v = .jstr s := by
  cases v <;> simp [jvalEqStr]

/-- No event emitted inside the loop body of `config_status` is a close:
line 156 is the only close and it sits after the loop. -/
theorem cycleStep_no_close (env : CycleEnv) : WatcherEvent.closeConn ∉ (cycleStep env).2 := by
  rcases env with ⟨conn, lines⟩
  cases conn with
  | noValidConnections => simp [cycleStep]
  | otherError e => simp [cycleStep]
  | ok =>
    cases h : lines.getLast? with
    | none => simp [cycleStep, h]
    | some last =>
      by_cases hs : searchFinished last = true <;> simp [cycleStep, h, hs]

/-- The network scan returns the `ip_address` of the first entry whose
`type` is `"public"`, ignoring earlier non-public entries. -/
theorem firstPublic_first (v : JVal) :
    ∀ (pre : List JVal) (a : JVal) (post : List JVal),
      (∀ b ∈ pre, ∃ tb, b.index "type" = .ok tb ∧ jvalEqStr tb "public" = false) →
      a.index "type" = .ok (.jstr "public") →
      a.index "ip_address" = .ok v →
      firstPublic (pre ++ a :: post) = .ok (some v) := by
  intro pre
  induction pre with
  | nil =>
    intro a post _ hty hip
    simp [firstPublic, hty, hip, jvalEqStr]
  | cons b pre' ih =>
    intro a post hpre hty hip
    rcases hpre b (List.mem_cons_self b pre') with ⟨tb, htb, hfb⟩
    simp [firstPublic, htb, hfb,
      ih a post (fun x hx => hpre x (List.mem_cons_of_mem b hx)) hty hip]

/-- When no entry of the scan has `type = "public"`, the loop falls
through and `droplet_ip` is never assigned. -/
theorem firstPublic_none :
    ∀ addrs : List JVal,
      (∀ b ∈ addrs, ∃ tb, b.index "type" = .ok tb ∧ jvalEqStr tb "public" = false) →
      firstPublic addrs = .ok none := by
  intro addrs
  induction addrs with
  | nil => intro _; rfl
  | cons b rest ih =>
    intro h
    rcases h b (List.mem_cons_self b rest) with ⟨tb, htb, hfb⟩
    simp [firstPublic, htb, hfb, ih (fun x hx => h x (List.mem_cons_of_mem b hx))]

/-!
## Claims
-/

/-- Claim C4: for every HTTP response whose status code is neither 200
nor 202 and whose parsed body carries the provider's error code and
message, `request` raises `DigitalOceanError` carrying exactly that code
and message (built from the body, never from the raw HTTP status); and
for every response with status 200 or 202, the parsed body is returned
unchanged. -/
theorem request_error_carries_provider_code :
    (∀ (sc : Nat) (res : JVal) (code msg : String),
        sc ≠ 200 → sc ≠ 202 →
        res.index "id" = .ok (.jstr code) →
        res.index "message" = .ok (.jstr msg) →
        request sc (.ok res) = .error (.digitalOceanError (code ++ " - " ++ msg))) ∧
    (∀ (sc : Nat) (res : JVal), sc = 200 ∨ sc = 202 →
        request sc (.ok res) = .ok res) := by
  constructor
  · intro sc res code msg h200 h202 hid hmsg
    simp [request, h200, h202, hid, hmsg, pyStr]
  · rintro sc res (rfl | rfl) <;> simp [request]

/-- Witness for C4 at a concrete 404 error body. -/
theorem request_error_carries_provider_code_witness :
    request 404 (.ok (.jobj [("id", .jstr "not_found"), ("message", .jstr "oops")])) =
      .error (.digitalOceanError ("not_found" ++ " - " ++ "oops")) ∧
    request 200 (.ok (.jobj [("ssh_keys", .jarr [])])) = .ok (.jobj [("ssh_keys", .jarr [])]) :=
  ⟨request_error_carries_provider_code.1 404 _ "not_found" "oops"
      (by decide) (by decide) rfl rfl,
   request_error_carries_provider_code.2 200 _ (Or.inl rfl)⟩

/-- Claim C2: `droplet_status` returns only a droplet whose status field
is exactly the string "active"; a response with any other status value
(including a differently-cased string or a non-string) causes another
poll iteration; and there is no maximum retry count — a response stream
of any length with non-active statuses never makes it return. -/
theorem droplet_status_returns_only_active :
    (∀ (rs : List (Except PyError JVal)) (d : JVal),
        droplet_status rs = some (.ok d) → d.index "status" = .ok (.jstr "active")) ∧
    (∀ (res : JVal) (rest : List (Except PyError JVal)) (d s : JVal),
        res.index "droplet" = .ok d → d.index "status" = .ok s →
        jvalEqStr s "active" = false →
        droplet_status (.ok res :: rest) = droplet_status rest) ∧
    (∀ (n : Nat) (res d s : JVal),
        res.index "droplet" = .ok d → d.index "status" = .ok s →
        jvalEqStr s "active" = false →
        droplet_status (List.replicate n (.ok res)) = none) := by
  refine ⟨?_, ?_, ?_⟩
  · intro rs
    induction rs with
    | nil => intro d h; simp [droplet_status] at h
    | cons r rest ih =>
      intro d h
      cases r with
      | error e => simp [droplet_status] at h
      | ok res =>
        simp only [droplet_status] at h
        cases hdr : res.index "droplet" with
        | error e => rw [hdr] at h; simp at h
        | ok d0 =>
          simp only [hdr] at h
          cases hst : d0.index "status" with
          | error e => rw [hst] at h; simp at h
          | ok s =>
            simp only [hst] at h
            by_cases hb : jvalEqStr s "active" = true
            · rw [if_pos hb] at h
              obtain rfl : d0 = d := by simpa using h
              rw [hst, (jvalEqStr_eq_true s "active").mp hb]
            · rw [if_neg hb] at h
              exact ih d h
  · intro res rest d s hres hst hb
    simp [droplet_status, hres, hst, hb]
  · intro n res d s hres hst hb
    induction n with
    | zero => rfl
    | succ n ih => simp [List.replicate_succ, droplet_status, hres, hst, hb, ih]

/-- Concrete droplet objects for witnesses. -/
def dropletActive : JVal := .jobj [("status", .jstr "active")]

def dropletCased : JVal := .jobj [("status", .jstr "Active")]

def dropletNew : JVal := .jobj [("status", .jstr "new")]

/-- Witness for C2: an "active" response makes the poller return a
droplet whose status is "active"; a response with status "Active"
(different case) or "new" causes another iteration; and any number of
"new" responses in a row never makes the poller return. -/
theorem droplet_status_returns_only_active_witness :
    dropletActive.index "status" = .ok (.jstr "active") ∧
    droplet_status [.ok (.jobj [("droplet", dropletCased)])] = droplet_status [] ∧
    droplet_status (List.replicate 7 (.ok (.jobj [("droplet", dropletNew)]))) = none :=
  ⟨droplet_status_returns_only_active.1 [.ok (.jobj [("droplet", dropletActive)])]
      dropletActive rfl,
   droplet_status_returns_only_active.2.1 (.jobj [("droplet", dropletCased)]) []
      dropletCased (.jstr "Active") rfl rfl (by decide),
   droplet_status_returns_only_active.2.2 7 (.jobj [("droplet", dropletNew)])
      dropletNew (.jstr "new") rfl rfl (by decide)⟩

/-- Claim C9 counterexample: the template "WGWG_PORT_PORT" contains the
placeholder, the empty port string does not contain it, and yet the
substituted payload (which is "WG_PORT") still contains the placeholder:
removing an occurrence can splice surrounding text into a fresh
occurrence, so the claim's universal statement fails. -/
theorem substitution_placeholder_reappears :
    containsSub wgPlaceholder ("WGWG_PORT_PORT".toList) ∧
    ¬ containsSub wgPlaceholder ([] : List Char) ∧
    containsSub wgPlaceholder (pyStrReplace ("WGWG_PORT_PORT".toList) wgPlaceholder []) := by
  refine ⟨(containsSubB_eq_true _ _).mp (by decide), ?_,
    (containsSubB_eq_true _ _).mp (by decide)⟩
  intro h
  exact absurd ((containsSubB_eq_true _ _).mpr h) (by decide)

/-- Claim C9 (amended): for every template containing the placeholder
token and every nonempty port string none of whose characters occurs in
the placeholder (any digit string such as "51820" qualifies), the
substituted payload contains the port string and contains no occurrence
of the placeholder token. -/
theorem substitution_removes_placeholder (template port : List Char)
    (ht : containsSub wgPlaceholder template) (hp : port ≠ [])
    (hdisj : ∀ c ∈ port, c ∉ wgPlaceholder) :
    containsSub port (pyStrReplace template wgPlaceholder port) ∧
    ¬ containsSub wgPlaceholder (pyStrReplace template wgPlaceholder port) :=
  ⟨replaceGo_inserts wgPlaceholder port (by decide) template ht,
   replaceGo_no_pattern wgPlaceholder port (by decide) hp hdisj template 0⟩

/-- Witness for the amended C9 at the spec's example port "51820". -/
theorem substitution_removes_placeholder_witness :
    containsSub ("51820".toList)
      (pyStrReplace ("ListenPort = WG_PORT".toList) wgPlaceholder ("51820".toList)) ∧
    ¬ containsSub wgPlaceholder
      (pyStrReplace ("ListenPort = WG_PORT".toList) wgPlaceholder ("51820".toList)) :=
  substitution_removes_placeholder ("ListenPort = WG_PORT".toList) ("51820".toList)
    ((containsSubB_eq_true _ _).mp (by decide)) (by decide) (by decide)

/-- Claim C1: in every watcher cycle that reaches the log read, the
artifact is fetched over the file-transfer sub-channel iff the last log
line matches the completion pattern; when the last line does not match,
no fetch occurs and the loop performs another iteration. -/
theorem watcher_fetch_iff_marker (env : CycleEnv) (last : List Char)
    (hc : env.connect = .ok) (hl : env.logLines.getLast? = some last) :
    (WatcherEvent.fetchArtifact ∈ (cycleStep env).2 ↔ searchFinished last = true) ∧
    ((cycleStep env).1 = .success ↔ searchFinished last = true) ∧
    (searchFinished last = false →
      (cycleStep env).1 = .retry ∧
      ∀ rest, config_status (env :: rest) =
        Option.map (fun p => (p.1, (cycleStep env).2 ++ p.2)) (config_status rest)) := by
  cases hsf : searchFinished last with
  | true =>
    have hstep : cycleStep env =
        (.success, [.sleep, .connectAttempt, .connected, .execLog, .fetchArtifact]) := by
      simp [cycleStep, hc, hl, hsf]
    refine ⟨?_, ?_, ?_⟩
    · rw [hstep]; simp
    · rw [hstep]; simp
    · intro hcontra; exact absurd hcontra (by simp)
  | false =>
    have hstep : cycleStep env =
        (.retry, [.sleep, .connectAttempt, .connected, .execLog]) := by
      simp [cycleStep, hc, hl, hsf]
    refine ⟨?_, ?_, ?_⟩
    · rw [hstep]; simp [hsf]
    · rw [hstep]; simp [hsf]
    · intro _
      refine ⟨by rw [hstep], ?_⟩
      intro rest
      cases hcs : config_status rest with
      | none => simp [config_status, hstep, hcs]
      | some p => rcases p with ⟨o, evs⟩; simp [config_status, hstep, hcs]

/-- A matching last log line: used by several witnesses. -/
def lineDone : List Char :=
  "Cloud-init v. 22.4.2 finished at Thu, 01 Jan 2026 00:00:00 +0000".toList

/-- A non-matching last log line. -/
def lineRunning : List Char := "cloud-init still running".toList

/-- A connected cycle whose log ends with the completion marker. -/
def envDone : CycleEnv := ⟨.ok, [lineRunning, lineDone]⟩

/-- A connected cycle whose log does not end with the marker. -/
def envRunning : CycleEnv := ⟨.ok, [lineRunning]⟩

/-- Witness for C1: on a matching tail the fetch happens and the cycle
succeeds; on a non-matching tail the cycle retries. -/
theorem watcher_fetch_iff_marker_witness :
    (WatcherEvent.fetchArtifact ∈ (cycleStep envDone).2 ↔ searchFinished lineDone = true) ∧
    ((cycleStep envRunning).1 = .retry) :=
  ⟨(watcher_fetch_iff_marker envDone lineDone rfl rfl).1,
   ((watcher_fetch_iff_marker envRunning lineRunning rfl rfl).2.2 (by decide)).1⟩

/-- A cycle in which `connect` raises an authentication failure. -/
def envAuthFail : CycleEnv := ⟨.otherError (.sshError "AuthenticationException"), []⟩

/-- Claim C6 counterexample: a connected cycle whose log tail does not
match ends its path (re-entering the connecting state) without any
close of the connection, and a fatal mid-cycle error also leaves the
watcher without a close; in the two-cycle trace no `closeConn` appears
before the second connection attempt — the single close happens only
after the successful fetch. -/
theorem watcher_no_close_on_retry_cex :
    (cycleStep envRunning).1 = .retry ∧
    WatcherEvent.closeConn ∉ (cycleStep envRunning).2 ∧
    config_status [envAuthFail] =
      some (.fatal (.sshError "AuthenticationException"),
        [.sleep, .connectAttempt]) ∧
    config_status [envRunning, envDone] =
      some (.success,
        [.sleep, .connectAttempt, .connected, .execLog,
         .sleep, .connectAttempt, .connected, .execLog, .fetchArtifact,
         .closeConn]) :=
  ⟨rfl, by decide, rfl, rfl⟩

/-- Claim C6 (amended): the watcher closes the connection exactly once,
as the final action of the successful exit path; a cycle whose log tail
does not match re-enters the connecting state without closing, and a
fatal error propagates out of the watcher without closing. -/
theorem watcher_close_only_on_success :
    ∀ (script : List CycleEnv) (o : CycleOutcome) (evs : List WatcherEvent),
      config_status script = some (o, evs) →
      (o = .success →
        ∃ pre, evs = pre ++ [WatcherEvent.closeConn] ∧ WatcherEvent.closeConn ∉ pre) ∧
      (∀ e, o = .fatal e → WatcherEvent.closeConn ∉ evs) := by
  intro script
  induction script with
  | nil => intro o evs h; simp [config_status] at h
  | cons env rest ih =>
    intro o evs h
    simp only [config_status] at h
    rcases hstep : cycleStep env with ⟨co, cevs⟩
    rw [hstep] at h
    have hno : WatcherEvent.closeConn ∉ cevs := by
      have := cycleStep_no_close env
      rw [hstep] at this
      exact this
    cases co with
    | retry =>
      cases hcs : config_status rest with
      | none => rw [hcs] at h; simp at h
      | some p =>
        rcases p with ⟨o', evs'⟩
        rw [hcs] at h
        simp only [Option.some.injEq, Prod.mk.injEq] at h
        rcases h with ⟨rfl, rfl⟩
        rcases ih o' (evs') hcs with ⟨hsucc, hfat⟩
        constructor
        · intro ho
          rcases hsucc ho with ⟨pre, hpre, hnp⟩
          refine ⟨cevs ++ pre, by rw [hpre, List.append_assoc], ?_⟩
          intro hmem
          rcases List.mem_append.mp hmem with hm | hm
          · exact hno hm
          · exact hnp hm
        · intro e he hmem
          rcases List.mem_append.mp hmem with hm | hm
          · exact hno hm
          · exact hfat e he hm
    | success =>
      simp only [Option.some.injEq, Prod.mk.injEq] at h
      rcases h with ⟨rfl, rfl⟩
      constructor
      · intro _
        exact ⟨cevs, rfl, hno⟩
      · intro e he
        exact absurd he (by simp)
    | fatal e0 =>
      simp only [Option.some.injEq, Prod.mk.injEq] at h
      rcases h with ⟨rfl, rfl⟩
      constructor
      · intro ho
        exact absurd ho (by simp)
      · intro e _
        exact hno

/-- Witness for the amended C6: the one-cycle success trace ends in its
only close. -/
theorem watcher_close_only_on_success_witness :
    ∃ pre,
      [WatcherEvent.sleep, WatcherEvent.connectAttempt, WatcherEvent.connected,
       WatcherEvent.execLog, WatcherEvent.fetchArtifact, WatcherEvent.closeConn] =
        pre ++ [WatcherEvent.closeConn] ∧ WatcherEvent.closeConn ∉ pre :=
  (watcher_close_only_on_success [envDone] .success
      [.sleep, .connectAttempt, .connected, .execLog, .fetchArtifact, .closeConn]
      (by decide)).1 rfl

/-- Claim C8: a `NoValidConnectionsError`-class connection failure
(server not yet listening) causes a fixed-interval sleep and another
connection attempt, retried indefinitely (a script of any length of such
failures never leaves the loop); any other connection error is fatal and
surfaces out of the watcher instead of being retried. -/
theorem watcher_connect_retry_policy :
    (∀ env : CycleEnv, env.connect = .noValidConnections →
        cycleStep env = (.retry, [.sleep, .connectAttempt])) ∧
    (∀ (env : CycleEnv) (rest : List CycleEnv), env.connect = .noValidConnections →
        config_status (env :: rest) =
          Option.map (fun p => (p.1, [WatcherEvent.sleep, WatcherEvent.connectAttempt] ++ p.2))
            (config_status rest)) ∧
    (∀ (n : Nat) (env : CycleEnv), env.connect = .noValidConnections →
        config_status (List.replicate n env) = none) ∧
    (∀ (env : CycleEnv) (e : PyError) (rest : List CycleEnv), env.connect = .otherError e →
        cycleStep env = (.fatal e, [.sleep, .connectAttempt]) ∧
        config_status (env :: rest) = some (.fatal e, [.sleep, .connectAttempt])) := by
  refine ⟨?_, ?_, ?_, ?_⟩
  · intro env hc
    simp [cycleStep, hc]
  · intro env rest hc
    cases hcs : config_status rest with
    | none => simp [config_status, cycleStep, hc, hcs]
    | some p => rcases p with ⟨o, evs⟩; simp [config_status, cycleStep, hc, hcs]
  · intro n env hc
    induction n with
    | zero => rfl
    | succ n ih => simp [List.replicate_succ, config_status, cycleStep, hc, ih]
  · intro env e rest hc
    exact ⟨by simp [cycleStep, hc], by simp [config_status, cycleStep, hc]⟩

/-- A cycle in which the SSH server is not yet listening. -/
def envNoRoute : CycleEnv := ⟨.noValidConnections, []⟩

/-- Witness for C8: the transient failure retries (five in a row never
exit the loop); an authentication failure is fatal and surfaced. -/
theorem watcher_connect_retry_policy_witness :
    cycleStep envNoRoute = (.retry, [.sleep, .connectAttempt]) ∧
    config_status (List.replicate 5 envNoRoute) = none ∧
    config_status [envAuthFail] =
      some (.fatal (.sshError "AuthenticationException"), [.sleep, .connectAttempt]) :=
  ⟨watcher_connect_retry_policy.1 envNoRoute rfl,
   watcher_connect_retry_policy.2.2.1 5 envNoRoute rfl,
   (watcher_connect_retry_policy.2.2.2 envAuthFail (.sshError "AuthenticationException") []
      rfl).2⟩

/-- Claim C10: a cycle whose connection succeeds but whose log read
returns zero lines raises `IndexError` from `stdout.readlines()[-1]`,
which leaves the watcher as an unhandled error instead of being treated
as an incomplete cycle that polls again. -/
theorem watcher_empty_log_index_error :
    ∀ env : CycleEnv, env.connect = .ok → env.logLines = [] →
      cycleStep env = (.fatal .indexError, [.sleep, .connectAttempt, .connected, .execLog]) ∧
      (cycleStep env).1 ≠ .retry ∧
      (∀ rest, config_status (env :: rest) =
        some (.fatal .indexError, [.sleep, .connectAttempt, .connected, .execLog])) := by
  rintro ⟨conn, lines⟩ hc hl
  cases hc
  cases hl
  refine ⟨rfl, by simp [cycleStep], fun rest => rfl⟩

/-- Witness for C10 at the concrete empty-log cycle. -/
theorem watcher_empty_log_index_error_witness :
    cycleStep ⟨.ok, []⟩ =
      (.fatal .indexError, [.sleep, .connectAttempt, .connected, .execLog]) ∧
    config_status [⟨.ok, []⟩] =
      some (.fatal .indexError, [.sleep, .connectAttempt, .connected, .execLog]) :=
  ⟨(watcher_empty_log_index_error ⟨.ok, []⟩ rfl rfl).1,
   (watcher_empty_log_index_error ⟨.ok, []⟩ rfl rfl).2.2 []⟩

/-- Claim C3: after the poller reports the droplet active, the
orchestrator hands the Remote Setup Watcher the `ip_address` of the
first `networks.v4` entry whose `type` is `"public"`; and when no entry
is public the run fails fatally — `create_droplet` raises the unbound
`droplet_ip` error at the watcher call, the watcher is never invoked
with any address, and the process exits non-zero. -/
theorem orchestrator_first_public_address
    (t p : List Char) (env : OrchEnv) (res d0 i dd nets : JVal) (addrs : List JVal)
    (h1 : env.createResult = .ok res)
    (h2 : res.index "droplet" = .ok d0) (h3 : d0.index "id" = .ok i)
    (h4 : droplet_status env.pollResponses = some (.ok dd))
    (h5 : dd.index "networks" = .ok nets) (h6 : nets.index "v4" = .ok (.jarr addrs)) :
    (∀ (pre : List JVal) (a : JVal) (post : List JVal) (v : JVal),
        addrs = pre ++ a :: post →
        (∀ b ∈ pre, ∃ tb, b.index "type" = .ok tb ∧ jvalEqStr tb "public" = false) →
        a.index "type" = .ok (.jstr "public") →
        a.index "ip_address" = .ok v →
        OrchEvent.invokedWatcher v ∈ (create_droplet t p env).2) ∧
    ((∀ b ∈ addrs, ∃ tb, b.index "type" = .ok tb ∧ jvalEqStr tb "public" = false) →
      (create_droplet t p env).1 = .raised (.unboundLocal "droplet_ip") ∧
      (∀ v, OrchEvent.invokedWatcher v ∉ (create_droplet t p env).2) ∧
      (main_create t p env).2.2 = some 1) := by
  constructor
  · rintro pre a post v rfl hpre hty hip
    have hfp := firstPublic_first v pre a post hpre hty hip
    simp [create_droplet, h1, h2, h3, h4, h5, h6, hfp]
  · intro hall
    have hfp := firstPublic_none addrs hall
    have hcd : create_droplet t p env =
        (.raised (.unboundLocal "droplet_ip"),
         [.logInfo "setting cloud_config.yml",
          .setUserData (pyStrReplace t wgPlaceholder p),
          .logInfo "waiting for droplet to become active", .invokedPoller]) := by
      simp [create_droplet, h1, h2, h3, h4, h5, h6, hfp]
    refine ⟨by rw [hcd], ?_, ?_⟩
    · intro v
      rw [hcd]
      simp
    · simp [main_create, hcd]

/-- A create response carrying a droplet id. -/
def resOk : JVal := .jobj [("droplet", .jobj [("id", .jnum 1)])]

/-- A private (non-public) network entry. -/
def addrPriv : JVal := .jobj [("type", .jstr "private"), ("ip_address", .jstr "10.0.0.2")]

/-- A public network entry. -/
def addrPub : JVal := .jobj [("type", .jstr "public"), ("ip_address", .jstr "203.0.113.5")]

/-- An active droplet whose v4 list has a private entry before the
public one. -/
def ddActive : JVal :=
  .jobj [("status", .jstr "active"),
         ("networks", .jobj [("v4", .jarr [addrPriv, addrPub])])]

/-- The orchestrator environment for the C3 witness. -/
def envPublic : OrchEnv := ⟨.ok resOk, [.ok (.jobj [("droplet", ddActive)])], [envDone]⟩

/-- Witness for C3: the watcher is invoked with "203.0.113.5", the first
public address, skipping the preceding private entry. -/
theorem orchestrator_first_public_address_witness :
    OrchEvent.invokedWatcher (.jstr "203.0.113.5") ∈ (create_droplet [] [] envPublic).2 :=
  (orchestrator_first_public_address [] [] envPublic resOk
      (.jobj [("id", .jnum 1)]) (.jnum 1) ddActive
      (.jobj [("v4", .jarr [addrPriv, addrPub])]) [addrPriv, addrPub]
      rfl rfl rfl rfl rfl rfl).1
    [addrPriv] addrPub [] (.jstr "203.0.113.5") rfl
    (fun b hb => by
      rcases List.mem_singleton.mp hb with rfl
      exact ⟨.jstr "private", rfl, rfl⟩)
    rfl rfl

/-- The failing input for C5: a create response that is an empty object,
so `res["droplet"]["id"]` raises `KeyError("droplet")`. -/
def envNoId : OrchEnv := ⟨.ok (.jobj []), [], []⟩

/-- Claim C5, evaluated at the failing input: with a create response
lacking the droplet id, `create_droplet` returns through the
`except KeyError` handler before invoking the readiness poller, logging
"failed to check droplet status" (an error report distinct from any
`DigitalOceanError`) — but the handled error produces a normal return,
so the process exits with code 0 instead of the required non-zero code. -/
theorem create_missing_id_exits_zero :
    main_create [] [] envNoId =
      (.earlyReturn,
        [.logInfo "setting cloud_config.yml", .setUserData [],
         .logInfo "waiting for droplet to become active",
         .logError "failed to check droplet status"], some 0) ∧
    OrchEvent.invokedPoller ∉ (create_droplet [] [] envNoId).2 := by
  constructor
  · rfl
  · have h : (create_droplet [] [] envNoId).2 =
        [.logInfo "setting cloud_config.yml", .setUserData [],
         .logInfo "waiting for droplet to become active",
         .logError "failed to check droplet status"] := rfl
    rw [h]
    simp

/-- The counterexample input for C7: the create response carries an id,
but the first polling response is an empty object, so
`res["droplet"]["status"]` inside `droplet_status` raises
`KeyError("droplet")`. -/
def envMalformedPoll : OrchEnv := ⟨.ok resOk, [.ok (.jobj [])], []⟩

/-- Claim C7 counterexample: the `KeyError` raised on a malformed
polling response does not propagate out of the orchestrator —
`create_droplet`'s `except KeyError` catches it, logs, and returns
normally, and the process exits 0. -/
theorem poll_malformed_error_suppressed_cex :
    (create_droplet [] [] envMalformedPoll).1 = .earlyReturn ∧
    (∀ e, (create_droplet [] [] envMalformedPoll).1 ≠ .raised e) ∧
    (main_create [] [] envMalformedPoll).2.2 = some 0 := by
  refine ⟨rfl, ?_, rfl⟩
  intro e h
  have h2 : OrchOutcome.earlyReturn = OrchOutcome.raised e := by rw [← h]; rfl
  exact OrchOutcome.noConfusion h2

/-- Claim C7 (amended): a `DigitalOceanError` raised by the Provider
Client during readiness polling is fatal and propagates out of the
orchestrator, the process exiting non-zero; but a malformed polling
response lacking the droplet/status fields raises a `KeyError`, which
the orchestrator catches and converts into a logged message and a
normal return (exit code 0) rather than propagating. -/
theorem poll_error_propagation
    (t p : List Char) (env : OrchEnv) (res d0 i : JVal)
    (h1 : env.createResult = .ok res) (h2 : res.index "droplet" = .ok d0)
    (h3 : d0.index "id" = .ok i) :
    (∀ m, droplet_status env.pollResponses = some (.error (.digitalOceanError m)) →
        (create_droplet t p env).1 = .raised (.digitalOceanError m) ∧
        (main_create t p env).2.2 = some 1) ∧
    (∀ k, droplet_status env.pollResponses = some (.error (.keyError k)) →
        (create_droplet t p env).1 = .earlyReturn ∧
        (main_create t p env).2.2 = some 0) := by
  constructor
  · intro m h4
    have hcd : create_droplet t p env =
        (.raised (.digitalOceanError m),
         [.logInfo "setting cloud_config.yml",
          .setUserData (pyStrReplace t wgPlaceholder p),
          .logInfo "waiting for droplet to become active", .invokedPoller]) := by
      simp [create_droplet, h1, h2, h3, h4]
    exact ⟨by rw [hcd], by simp [main_create, hcd]⟩
  · intro k h4
    have hcd : create_droplet t p env =
        (.earlyReturn,
         [.logInfo "setting cloud_config.yml",
          .setUserData (pyStrReplace t wgPlaceholder p),
          .logInfo "waiting for droplet to become active", .invokedPoller,
          .logError "failed to check droplet status"]) := by
      simp [create_droplet, h1, h2, h3, h4]
    exact ⟨by rw [hcd], by simp [main_create, hcd]⟩

/-- The input for the C7 witness: polling raises a `DigitalOceanError`. -/
def envProviderErrPoll : OrchEnv :=
  ⟨.ok resOk, [.error (.digitalOceanError "not_found - oops")], []⟩

/-- Witness for the amended C7: the provider error propagates out of
`create_droplet` and the process exits 1; the malformed-response
`KeyError` is caught and the process exits 0. -/
theorem poll_error_propagation_witness :
    ((create_droplet [] [] envProviderErrPoll).1 =
        .raised (.digitalOceanError "not_found - oops") ∧
      (main_create [] [] envProviderErrPoll).2.2 = some 1) ∧
    ((create_droplet [] [] envMalformedPoll).1 = .earlyReturn ∧
      (main_create [] [] envMalformedPoll).2.2 = some 0) :=
  ⟨(poll_error_propagation [] [] envProviderErrPoll resOk
        (.jobj [("id", .jnum 1)]) (.jnum 1) rfl rfl rfl).1
      "not_found - oops" rfl,
   (poll_error_propagation [] [] envMalformedPoll resOk
        (.jobj [("id", .jnum 1)]) (.jnum 1) rfl rfl rfl).2
      "droplet" rfl⟩
